import Mathlib

/-!
Shallow embedding of `src/main.py` of the tourist-safety-monitoring backend.

Modelling conventions:
  * Python floats carried through the control logic (coordinates, temperatures,
    thresholds, timestamps) are modelled as exact rationals `ℚ`; timestamps are
    rationals measured in minutes, so `now - last.timestamp` is the elapsed time
    in minutes (Python compares `datetime` differences against
    `timedelta(minutes=…)`).
  * The trigonometric distance utility `haversine` is modelled over the reals
    `ℝ` (see the `HaversineReal` section); inside the `/track` handler the
    distance function is an explicit parameter `dist`, abstracting the float
    computation, so that the handler's control flow (which only compares the
    returned distances against thresholds) can be analysed for every distance
    function.
  * Fallible code is modelled with `Option`: a Python runtime exception
    (`TypeError` from `math.radians(None)`) is `none`.
  * Python truthiness of an optional float (`if data.destination_lat:`,
    `if temp and …`) is `pyTruthy`: `None` and `0.0` are falsy.
  * The process-wide dict `tourist_state` is an association list
    `List (String × StateRecord)`; Python dicts have pairwise-distinct keys,
    which appears as a `Nodup` hypothesis where a lookup/delete analysis
    needs it.
-/

/-! ## Weather gateway data (`get_weather_data` response, as read by the scorer)

The scorer reads three fields out of the gateway JSON:
`weather.get("weather", [{}])[0].get("main")` (optional condition string),
`weather.get("main", {}).get("temp")` (optional temperature) and
`weather.get("name", "Unknown Area")` (optional place name).  A gateway
failure or a missing API key yields `None`, modelled as `none`. -/

structure WeatherInfo where
  main : Option String
  temp : Option ℚ
  name : Option String
deriving DecidableEq

/-- Python truthiness of an optional float: `None` and `0.0` are falsy. -/
def pyTruthy : Option ℚ → Bool
  | none => false
  | some x => x != 0

/-! ## `/calculate_score` (`calculate_safety_score`, main.py lines 67-110) -/

structure LocationData where
  latitude : ℚ
  longitude : ℚ
  destination_lat : Option ℚ := none
  destination_lon : Option ℚ := none
deriving DecidableEq

structure ScoreResponse where
  score : ℤ
  level : String
  reasons : List String
  district : String
deriving DecidableEq

/-- Line 76: `lat_to_check = location_data.destination_lat if location_data.destination_lat is not None else location_data.latitude`. -/
def lat_to_check (d : LocationData) : ℚ :=
  match d.destination_lat with
  | some v => v
  | none => d.latitude

/-- Line 77: `lon_to_check = location_data.destination_lon if location_data.destination_lon is not None else location_data.longitude`. -/
def lon_to_check (d : LocationData) : ℚ :=
  match d.destination_lon with
  | some v => v
  | none => d.longitude

/-- Line 90: the adverse-weather condition list. -/
def adverseConditions : List String :=
  ["Rain", "Thunderstorm", "Fog", "Mist", "Snow", "Drizzle"]

/-- Lines 85-95: the weather-based deduction and its reasons, in evaluation
order (condition first, then heat).  A `none` weather (gateway unavailable)
skips both deductions.  `if temp and temp > 35` uses Python truthiness of
`temp`. -/
def weatherDeduction (weather : Option WeatherInfo) : ℤ × List String :=
  match weather with
  | none => (0, [])
  | some w =>
    let d1 : ℤ × List String :=
      match w.main with
      | some m =>
        if m ∈ adverseConditions then
          (25, ["Adverse weather predicted: " ++ m ++ "."])
        else (0, [])
      | none => (0, [])
    let d2 : ℤ × List String :=
      match w.temp with
      | some t => if t ≠ 0 ∧ t > 35 then
          (15, ["Potential for extreme heat: " ++ toString t ++ "°C."])
        else (0, [])
      | none => (0, [])
    (d1.1 + d2.1, d1.2 ++ d2.2)

/-- Lines 98-101: the time-of-day deduction, from the serving process's
wall-clock hour (`datetime.now().hour`). -/
def nightDeduction (hour : ℕ) : ℤ × List String :=
  if hour < 6 ∨ hour > 22 then (30, ["Late night travel increases risk."]) else (0, [])

/-- The score accumulated by lines 79-101, before the clamp of line 103:
start at 100 and subtract the weather and time deductions. -/
def rawScore (weather : Option WeatherInfo) (hour : ℕ) : ℤ :=
  100 - (weatherDeduction weather).1 - (nightDeduction hour).1

/-- Lines 67-110, `calculate_safety_score`: the weather gateway
(`get_weather_data`) is the explicit parameter `getWeather`, and the process's
current hour is the parameter `hour`. -/
def calculate_safety_score (getWeather : ℚ → ℚ → Option WeatherInfo) (hour : ℕ)
    (d : LocationData) : ScoreResponse :=
  let weather := getWeather (lat_to_check d) (lon_to_check d)
  let score : ℤ := max 0 (rawScore weather hour)
  { score := score
    level := if score > 65 then "Safe" else if score > 35 then "Caution" else "Unsafe"
    reasons := (weatherDeduction weather).2 ++ (nightDeduction hour).2
    district :=
      match weather with
      | some w => w.name.getD "Unknown Area"
      | none => "N/A" }

/-! ## `/track` (`track_location_and_detect_anomalies`, main.py lines 114-151) -/

structure TrackingData where
  tourist_id : String
  latitude : ℚ
  longitude : ℚ
  destination_lat : Option ℚ := none
  destination_lon : Option ℚ := none
deriving DecidableEq

/-- The dict stored at line 146:
`{"lat": data.destination_lat, "lon": data.destination_lon}` — both values are
stored as-is, so the longitude may be `None` even when the dict is present. -/
structure DestRecord where
  lat : Option ℚ
  lon : Option ℚ
deriving DecidableEq

/-- One `tourist_state[tourist_id]` record (lines 142-147). -/
structure StateRecord where
  lat : ℚ
  lon : ℚ
  timestamp : ℚ
  dest : Option DestRecord
deriving DecidableEq

/-- The process-wide dict `tourist_state`, as an association list. -/
abbrev TouristState := List (String × StateRecord)

structure TrackResponse where
  status : String
  anomalies : List String
deriving DecidableEq

/-- Line 128: the inactivity anomaly message. -/
def inactivityMsg (id : String) : String :=
  "Prolonged inactivity detected for tourist " ++ id ++ "."

/-- Line 138: the route-deviation anomaly message. -/
def routeMsg (id : String) : String :=
  "Route deviation detected for tourist " ++ id ++ "."

/-- Python dict assignment `tourist_state[tourist_id] = …`: the binding for
`k` is replaced, every other key keeps its record (the association-list order
is irrelevant to lookups). -/
def setKey (st : TouristState) (k : String) (v : StateRecord) : TouristState :=
  (k, v) :: st.filter (fun p => p.1 ≠ k)

/-- Lines 142-147: the record written after evaluation.  The `destination`
field is the dict `{"lat": …, "lon": …}` when `data.destination_lat` is truthy
(`if data.destination_lat else None`), else `None`. -/
def newRecord (data : TrackingData) (now : ℚ) : StateRecord :=
  { lat := data.latitude
    lon := data.longitude
    timestamp := now
    dest :=
      if pyTruthy data.destination_lat then
        some ⟨data.destination_lat, data.destination_lon⟩
      else none }

/-- The normal exit of the handler (lines 142-151): overwrite the state record
and answer `{"status": "location updated", "anomalies": anomalies_found}`. -/
def trackFinish (st : TouristState) (data : TrackingData) (now : ℚ)
    (anoms : List String) : List String × Option (TrackResponse × TouristState) :=
  (anoms, some (⟨"location updated", anoms⟩, setKey st data.tourist_id (newRecord data now)))

/-- Lines 114-151, `track_location_and_detect_anomalies`.

The float distance function `haversine` of line 43 is the explicit parameter
`dist`.  The result is the pair of (1) the anomaly messages printed/emitted by
lines 129-130 and 139-140, and (2) `some (response, new state)` on normal
completion, or `none` when the handler raises: at lines 134-135 the deviation
branch passes `data.destination_lon` to `haversine`, and when that field is
`None` Python's `math.radians(None)` raises a `TypeError` (the branch is
entered whenever `data.destination_lat` is truthy and the prior record stored
a destination dict, regardless of `destination_lon`). -/
def track (dist : ℚ → ℚ → ℚ → ℚ → ℚ) (st : TouristState) (data : TrackingData)
    (now : ℚ) : List String × Option (TrackResponse × TouristState) :=
  match List.lookup data.tourist_id st with
  | none => trackFinish st data now []
  | some last =>
    let time_diff_inactive := now - last.timestamp
    let distance_moved := dist data.latitude data.longitude last.lat last.lon
    let a1 : List String :=
      if time_diff_inactive > 20 ∧ distance_moved < 0.05 then
        [inactivityMsg data.tourist_id]
      else []
    match data.destination_lat with
    | some dlat =>
      if dlat ≠ 0 ∧ last.dest.isSome then
        match data.destination_lon with
        | some dlon =>
          let current_dist_to_dest := dist data.latitude data.longitude dlat dlon
          let prev_dist_to_dest := dist last.lat last.lon dlat dlon
          let a2 : List String :=
            if current_dist_to_dest > prev_dist_to_dest + 0.2 then
              [routeMsg data.tourist_id]
            else []
          trackFinish st data now (a1 ++ a2)
        | none => (a1, none)
      else trackFinish st data now a1
    | none => trackFinish st data now a1

/-- Lines 153-161, `check_for_sudden_dropoffs`: delete every record whose
timestamp is more than 15 minutes old. -/
def check_for_sudden_dropoffs (st : TouristState) (now : ℚ) : TouristState :=
  st.filter (fun p => ! decide (now - p.2.timestamp > 15))

/-! ## `/get_nearby_attractions` (`get_nearby_attractions`, main.py lines 163-205)

The handler loops over ten fixed keywords; each keyword's gateway call either
fails (`requests` exception → logged and skipped) or yields a JSON whose
`results` list is iterated.  We model the sequence of per-keyword outcomes as
`List (Option (List PoiResult))`, in keyword order: `none` is a failed call
(`if data.get("results")` treating a missing or empty list as falsy changes
nothing, since iterating an empty list adds nothing). -/

structure PoiResult where
  name : Option String
  address : Option String
  dist : ℚ
  lat : Option ℚ
  lon : Option ℚ
deriving DecidableEq

structure Attraction where
  name : String
  address : Option String
  dist : ℚ
  lat : Option ℚ
  lon : Option ℚ
deriving DecidableEq

/-- Lines 192-198: the output record built from a gateway result whose `poi`
name `n` was truthy and unseen. -/
def mkAttraction (r : PoiResult) (n : String) : Attraction :=
  ⟨n, r.address, r.dist, r.lat, r.lon⟩

/-- Lines 189-199, the inner loop over one response's results, with the
`attractions`/`seen_names` accumulators: a result is appended when its name is
truthy (non-`None`, non-empty — `if poi_name`) and not in `seen_names`. -/
def poiStep (st : List Attraction × List String) (r : PoiResult) :
    List Attraction × List String :=
  match r.name with
  | some n => if n ≠ "" ∧ n ∉ st.2 then (st.1 ++ [mkAttraction r n], n :: st.2) else st
  | none => st

/-- The flattened stream of gateway results, in keyword order, failed calls
skipped. -/
def poiStream (responses : List (Option (List PoiResult))) : List PoiResult :=
  (responses.map (fun o => o.getD [])).flatten

/-- Lines 170-202: the aggregation loop over all keywords. -/
def collectAttractions (responses : List (Option (List PoiResult))) : List Attraction :=
  (responses.foldl (fun st o => (o.getD []).foldl poiStep st) ([], [])).1

/-- Lines 163-205, `get_nearby_attractions`: aggregate, dedup by name, sort
ascending by the reported `dist` (Python's stable `list.sort`), return the
first 30. -/
def get_nearby_attractions (responses : List (Option (List PoiResult))) :
    List Attraction :=
  ((collectAttractions responses).mergeSort (fun a b => a.dist ≤ b.dist)).take 30

/-! ## `haversine` (main.py lines 43-50), over the reals

Python's `math.radians`, `math.sin`, `math.cos`, `math.sqrt`, `math.atan2`
over IEEE floats are idealised as the corresponding real functions. -/

noncomputable def pyRadians (x : ℝ) : ℝ := x * Real.pi / 180

/-- C/Python `math.atan2 y x`. -/
noncomputable def atan2 (y x : ℝ) : ℝ :=
  if 0 < x then Real.arctan (y / x)
  else if x < 0 then
    (if 0 ≤ y then Real.arctan (y / x) + Real.pi else Real.arctan (y / x) - Real.pi)
  else (if 0 < y then Real.pi / 2 else if y < 0 then -(Real.pi / 2) else 0)

/-- Lines 43-50, `haversine`: great-circle distance in km, Earth radius
6371.0 km. -/
noncomputable def haversine (lat1 lon1 lat2 lon2 : ℝ) : ℝ :=
  let R : ℝ := 6371.0
  let lat1_rad := pyRadians lat1
  let lon1_rad := pyRadians lon1
  let lat2_rad := pyRadians lat2
  let lon2_rad := pyRadians lon2
  let dlon := lon2_rad - lon1_rad
  let dlat := lat2_rad - lat1_rad
  let a := Real.sin (dlat / 2) ^ 2 +
    Real.cos lat1_rad * Real.cos lat2_rad * Real.sin (dlon / 2) ^ 2
  let c := 2 * atan2 (Real.sqrt a) (Real.sqrt (1 - a))
  R * c

/-- A concrete weather gateway answering "Rain", 20°C, place "Hyderabad". -/
def rainGateway : ℚ → ℚ → Option WeatherInfo :=
  fun _ _ => some ⟨some "Rain", some 20, some "Hyderabad"⟩

/-- A concrete stand-in distance function (squared Euclidean distance on
coordinate pairs), used to exercise the handler's control flow at concrete
inputs. -/
def distSq : ℚ → ℚ → ℚ → ℚ → ℚ :=
  fun lat1 lon1 lat2 lon2 =>
    (lat1 - lat2) * (lat1 - lat2) + (lon1 - lon2) * (lon1 - lon2)

/-- Recursive characterization (used in proofs) of the dedup loop's
`attractions` accumulator: the attractions produced from `l` given the names
already in `seen_names`. -/
def dedup : List PoiResult → List String → List Attraction
  | [], _ => []
  | r :: rs, seen =>
    match r.name with
    | none => dedup rs seen
    | some n =>
      if n ≠ "" ∧ n ∉ seen then mkAttraction r n :: dedup rs (n :: seen)
      else dedup rs seen

/-- Recursive characterization of the dedup loop's `seen_names` accumulator. -/
def seenAfter : List PoiResult → List String → List String
  | [], seen => seen
  | r :: rs, seen =>
    match r.name with
    | none => seenAfter rs seen
    | some n =>
      if n ≠ "" ∧ n ∉ seen then seenAfter rs (n :: seen)
      else seenAfter rs seen

/-- Concrete per-keyword gateway outcomes: the first keyword search returns
"Park A" (distance 5) and "Beach B" (distance 2), the second fails, the third
returns a duplicate "Park A" (distance 1, closer). -/
def poiResponsesW : List (Option (List PoiResult)) :=
  [some [⟨some "Park A", some "addr1", 5, none, none⟩,
         ⟨some "Beach B", none, 2, none, none⟩],
   none,
   some [⟨some "Park A", some "addr3", 1, none, none⟩]]

def parkEntry : Attraction := ⟨"Park A", some "addr1", 5, none, none⟩

/-! ## Helper lemmas -/

lemma weatherDeduction_bounds (w : Option WeatherInfo) :
    0 ≤ (weatherDeduction w).1 ∧ (weatherDeduction w).1 ≤ 40 := by
  rcases w with - | ⟨m, t, n⟩
  · simp [weatherDeduction]
  · simp only [weatherDeduction]
    rcases m with - | m <;> rcases t with - | t <;>
      simp [adverseConditions] <;> split_ifs <;> norm_num

lemma nightDeduction_bounds (hour : ℕ) :
    0 ≤ (nightDeduction hour).1 ∧ (nightDeduction hour).1 ≤ 30 := by
  unfold nightDeduction
  split_ifs <;> norm_num

lemma rawScore_ge (weather : Option WeatherInfo) (hour : ℕ) :
    30 ≤ rawScore weather hour := by
  have h1 := weatherDeduction_bounds weather
  have h2 := nightDeduction_bounds hour
  unfold rawScore
  omega

/-- C9: the geo-distance utility is symmetric and vanishes on the diagonal. -/
theorem haversine_symm_and_self_zero :
    (∀ lat1 lon1 lat2 lon2 : ℝ,
      haversine lat1 lon1 lat2 lon2 = haversine lat2 lon2 lat1 lon1) ∧
    (∀ lat lon : ℝ, haversine lat lon lat lon = 0) := by
  constructor
  · intro lat1 lon1 lat2 lon2
    have h1 : ∀ x y : ℝ, Real.sin ((x - y) / 2) ^ 2 = Real.sin ((y - x) / 2) ^ 2 := by
      intro x y
      rw [show (x - y) / 2 = -((y - x) / 2) by ring, Real.sin_neg]
      ring
    simp only [haversine]
    rw [h1 (pyRadians lat2) (pyRadians lat1), h1 (pyRadians lon2) (pyRadians lon1),
      mul_comm (Real.cos (pyRadians lat1)) (Real.cos (pyRadians lat2))]
  · intro lat lon
    simp [haversine, atan2, Real.arctan_zero]

/-- C10: the scorer picks the queried coordinates componentwise — each
destination component overrides the matching current-position component
independently, so a single supplied destination component produces a mixed
query point. -/
theorem score_coords_componentwise :
    (∀ (g : ℚ → ℚ → Option WeatherInfo) (hour : ℕ) (lat lon dlat : ℚ),
      calculate_safety_score g hour ⟨lat, lon, some dlat, none⟩ =
        calculate_safety_score g hour ⟨dlat, lon, none, none⟩) ∧
    (∀ (g : ℚ → ℚ → Option WeatherInfo) (hour : ℕ) (lat lon dlon : ℚ),
      calculate_safety_score g hour ⟨lat, lon, none, some dlon⟩ =
        calculate_safety_score g hour ⟨lat, dlon, none, none⟩) ∧
    (∀ (g : ℚ → ℚ → Option WeatherInfo) (hour : ℕ) (d : LocationData),
      calculate_safety_score g hour d =
        calculate_safety_score g hour ⟨lat_to_check d, lon_to_check d, none, none⟩) :=
  ⟨fun _ _ _ _ _ => rfl, fun _ _ _ _ _ => rfl, fun _ _ _ => rfl⟩

/-- C7: the pre-clamp score is at least 30 for every weather outcome and hour,
so the returned score equals the unclamped score (the clamp of line 103 never
changes the value) and is never below 0. -/
theorem score_clamp_unreachable :
    ∀ (weather : Option WeatherInfo) (hour : ℕ)
      (g : ℚ → ℚ → Option WeatherInfo) (d : LocationData),
    30 ≤ rawScore weather hour ∧
    max 0 (rawScore weather hour) = rawScore weather hour ∧
    (calculate_safety_score g hour d).score =
      rawScore (g (lat_to_check d) (lon_to_check d)) hour ∧
    0 ≤ (calculate_safety_score g hour d).score := by
  intro weather hour g d
  have h1 := rawScore_ge weather hour
  have h2 := rawScore_ge (g (lat_to_check d) (lon_to_check d)) hour
  refine ⟨h1, max_eq_right (by omega), ?_, ?_⟩
  · show max 0 (rawScore (g (lat_to_check d) (lon_to_check d)) hour) = _
    exact max_eq_right (by omega)
  · show 0 ≤ max 0 (rawScore (g (lat_to_check d) (lon_to_check d)) hour)
    exact le_max_left 0 _

/-- C3: with condition "Rain", temperature not above 35°C, and serving hour
23, the response is score 45, level "Caution", and exactly the two reasons in
evaluation order (weather condition first, night travel second). -/
theorem score_rain_hour23 (g : ℚ → ℚ → Option WeatherInfo) (d : LocationData)
    (w : WeatherInfo)
    (hg : g (lat_to_check d) (lon_to_check d) = some w)
    (hm : w.main = some "Rain")
    (ht : ∀ t, w.temp = some t → t ≤ 35) :
    (calculate_safety_score g 23 d).score = 45 ∧
    (calculate_safety_score g 23 d).level = "Caution" ∧
    (calculate_safety_score g 23 d).reasons =
      ["Adverse weather predicted: Rain.", "Late night travel increases risk."] := by
  have hw : weatherDeduction (g (lat_to_check d) (lon_to_check d)) =
      (25, ["Adverse weather predicted: Rain."]) := by
    rw [hg]
    simp only [weatherDeduction, hm]
    cases htmp : w.temp with
    | none => simp [adverseConditions]
    | some tv =>
      have htv := ht tv htmp
      have hno : ¬(tv ≠ 0 ∧ tv > 35) := by rintro ⟨-, h35⟩; linarith
      simp [adverseConditions, hno]
  have hn : nightDeduction 23 = (30, ["Late night travel increases risk."]) := by
    simp [nightDeduction]
  have hraw : rawScore (g (lat_to_check d) (lon_to_check d)) 23 = 45 := by
    rw [rawScore, hw, hn]; norm_num
  refine ⟨?_, ?_, ?_⟩
  · show max 0 (rawScore (g (lat_to_check d) (lon_to_check d)) 23) = 45
    rw [hraw]; norm_num
  · show (if max 0 (rawScore (g (lat_to_check d) (lon_to_check d)) 23) > 65 then "Safe"
      else if max 0 (rawScore (g (lat_to_check d) (lon_to_check d)) 23) > 35 then "Caution"
      else "Unsafe") = "Caution"
    rw [hraw]
    norm_num
  · show (weatherDeduction (g (lat_to_check d) (lon_to_check d))).2 ++ (nightDeduction 23).2 = _
    rw [hw, hn]
    rfl

theorem score_rain_hour23_witness :
    (calculate_safety_score rainGateway 23 ⟨17, 78, none, none⟩).score = 45 ∧
    (calculate_safety_score rainGateway 23 ⟨17, 78, none, none⟩).level = "Caution" ∧
    (calculate_safety_score rainGateway 23 ⟨17, 78, none, none⟩).reasons =
      ["Adverse weather predicted: Rain.", "Late night travel increases risk."] :=
  score_rain_hour23 rainGateway ⟨17, 78, none, none⟩
    ⟨some "Rain", some 20, some "Hyderabad"⟩ rfl rfl
    (by intro t h; injection h with h2; rw [← h2]; norm_num)

lemma inactivityMsg_ne_routeMsg (id : String) : inactivityMsg id ≠ routeMsg id := by
  intro h
  have h2 := congrArg String.length h
  have e1 : ("Prolonged inactivity detected for tourist " : String).length = 42 := rfl
  have e2 : ("Route deviation detected for tourist " : String).length = 37 := rfl
  simp only [inactivityMsg, routeMsg, String.length_append, e1, e2] at h2
  omega

lemma lookup_eq_none_of_key_not_mem (k : String) :
    ∀ st : TouristState, k ∉ st.map Prod.fst → List.lookup k st = none := by
  intro st
  induction st with
  | nil => intro _; rfl
  | cons p t ih =>
    obtain ⟨a, v⟩ := p
    intro h
    simp only [List.map_cons, List.mem_cons, not_or] at h
    have hb : (k == a) = false := by simp [h.1]
    simp only [List.lookup, hb]
    exact ih h.2

lemma lookup_filter_ne (k k2 : String) (h : k2 ≠ k) :
    ∀ st : TouristState,
      List.lookup k2 (st.filter (fun p => p.1 ≠ k)) = List.lookup k2 st := by
  intro st
  induction st with
  | nil => rfl
  | cons p t ih =>
    obtain ⟨a, v⟩ := p
    by_cases ha : a = k
    · subst ha
      rw [List.filter_cons_of_neg (by simp)]
      rw [ih]
      have hb : (k2 == a) = false := by simp [h]
      simp only [List.lookup, hb]
    · rw [List.filter_cons_of_pos (by simp [ha])]
      simp only [List.lookup, ih]

lemma lookup_setKey_self (st : TouristState) (k : String) (v : StateRecord) :
    List.lookup k (setKey st k v) = some v := by
  simp [setKey, List.lookup]

lemma lookup_setKey_ne (st : TouristState) (k : String) (v : StateRecord)
    (k2 : String) (h : k2 ≠ k) :
    List.lookup k2 (setKey st k v) = List.lookup k2 st := by
  have hb : (k2 == k) = false := by simp [h]
  simp only [setKey, List.lookup, hb]
  exact lookup_filter_ne k k2 h st

lemma track_shape (dist : ℚ → ℚ → ℚ → ℚ → ℚ) (st : TouristState)
    (data : TrackingData) (now : ℚ) :
    (∃ a, track dist st data now = (a, none)) ∨
    track dist st data now =
      ((track dist st data now).1,
        some (⟨"location updated", (track dist st data now).1⟩,
          setKey st data.tourist_id (newRecord data now))) := by
  unfold track trackFinish
  cases List.lookup data.tourist_id st with
  | none => right; rfl
  | some last =>
    cases data.destination_lat with
    | none => right; rfl
    | some dlat =>
      cases data.destination_lon with
      | none =>
        dsimp only
        split_ifs <;> first | (left; exact ⟨_, rfl⟩) | (right; rfl)
      | some dlon =>
        dsimp only
        split_ifs <;> (right; rfl)

/-- C5 (amended): whenever the handler completes, the state store maps the
report's tourist identifier to exactly the new report's data — coordinates,
report-time timestamp, and a destination dict that is stored precisely when
`destination_lat` is truthy (non-null and nonzero) — and every other tourist
identifier's record is unchanged. -/
theorem track_overwrites_state (dist : ℚ → ℚ → ℚ → ℚ → ℚ) (st : TouristState)
    (data : TrackingData) (now : ℚ) (resp : TrackResponse) (st2 : TouristState)
    (h : (track dist st data now).2 = some (resp, st2)) :
    List.lookup data.tourist_id st2 =
      some { lat := data.latitude, lon := data.longitude, timestamp := now,
             dest := if pyTruthy data.destination_lat then
                 some ⟨data.destination_lat, data.destination_lon⟩
               else none } ∧
    ∀ k, k ≠ data.tourist_id → List.lookup k st2 = List.lookup k st := by
  rcases track_shape dist st data now with ⟨a, ha⟩ | ha
  · rw [ha] at h
    simp at h
  · rw [ha] at h
    simp only [Option.some.injEq, Prod.mk.injEq] at h
    obtain ⟨-, h2⟩ := h
    subst h2
    refine ⟨lookup_setKey_self st data.tourist_id (newRecord data now), ?_⟩
    intro k hk
    exact lookup_setKey_ne st data.tourist_id (newRecord data now) k hk

theorem track_overwrites_state_witness :
    List.lookup "t2" (setKey ([] : TouristState) "t2"
        (newRecord ⟨"t2", 1, 2, some 3, some 4⟩ 0)) =
      some { lat := 1, lon := 2, timestamp := 0,
             dest := if pyTruthy (some 3) then some ⟨some 3, some 4⟩ else none } ∧
    List.lookup "other" (setKey ([] : TouristState) "t2"
        (newRecord ⟨"t2", 1, 2, some 3, some 4⟩ 0)) =
      List.lookup "other" ([] : TouristState) := by
  have h := track_overwrites_state distSq [] ⟨"t2", 1, 2, some 3, some 4⟩ 0
    ⟨"location updated", []⟩
    (setKey ([] : TouristState) "t2" (newRecord ⟨"t2", 1, 2, some 3, some 4⟩ 0)) rfl
  exact ⟨h.1, h.2 "other" (by decide)⟩

/-- C5 counterexample: a report carrying the full destination `(0, 37)` — a
legitimate coordinate pair on the equator — completes normally, yet the stored
record's destination is `None`, because line 146 stores a destination dict
only when `destination_lat` is truthy and `0.0` is falsy in Python. -/
theorem track_zero_lat_destination_dropped :
    (⟨"t3", 1, 2, some 0, some 37⟩ : TrackingData).destination_lat = some 0 ∧
    (⟨"t3", 1, 2, some 0, some 37⟩ : TrackingData).destination_lon = some 37 ∧
    (track distSq [] ⟨"t3", 1, 2, some 0, some 37⟩ 5).2 =
      some (⟨"location updated", []⟩,
        [("t3", { lat := 1, lon := 2, timestamp := 5, dest := none })]) := by
  refine ⟨rfl, rfl, ?_⟩
  rfl

/-- C2 (amended): the handler completes, with status "location updated" and
the emitted anomaly list, for every schema-valid request EXCEPT when the
request has a truthy `destination_lat`, no `destination_lon`, and the state
store holds a prior record with a stored destination — in that combination
line 134 passes `None` to `haversine` and the handler raises a `TypeError`. -/
theorem track_no_error (dist : ℚ → ℚ → ℚ → ℚ → ℚ) (st : TouristState)
    (data : TrackingData) (now : ℚ)
    (h : ¬(pyTruthy data.destination_lat = true ∧ data.destination_lon = none ∧
        ∃ last, List.lookup data.tourist_id st = some last ∧
          last.dest.isSome = true)) :
    ∃ st2, (track dist st data now).2 =
      some (⟨"location updated", (track dist st data now).1⟩, st2) := by
  rcases track_shape dist st data now with ⟨a, ha⟩ | ha
  · exfalso
    apply h
    revert ha
    unfold track trackFinish
    cases hl : List.lookup data.tourist_id st with
    | none => intro ha; cases congrArg Prod.snd ha
    | some last =>
      cases hdl : data.destination_lat with
      | none => intro ha; cases congrArg Prod.snd ha
      | some dlat =>
        cases hlon : data.destination_lon with
        | some dlon =>
          dsimp only
          by_cases hdc : (dlat ≠ 0 ∧ last.dest.isSome = true)
          · rw [if_pos hdc]
            intro ha
            cases congrArg Prod.snd ha
          · rw [if_neg hdc]
            intro ha
            cases congrArg Prod.snd ha
        | none =>
          dsimp only
          by_cases hdc : (dlat ≠ 0 ∧ last.dest.isSome = true)
          · rw [if_pos hdc]
            intro _
            exact ⟨by simp [pyTruthy, hdc.1], rfl, last, rfl, hdc.2⟩
          · rw [if_neg hdc]
            intro ha
            cases congrArg Prod.snd ha
  · exact ⟨setKey st data.tourist_id (newRecord data now), congrArg Prod.snd ha⟩

theorem track_no_error_witness :
    ∃ st2, (track distSq [] ⟨"t9", 3, 4, none, none⟩ 7).2 =
      some (⟨"location updated", (track distSq [] ⟨"t9", 3, 4, none, none⟩ 7).1⟩, st2) :=
  track_no_error distSq [] ⟨"t9", 3, 4, none, none⟩ 7
    (by rintro ⟨hp, -, -⟩; cases hp)

/-- C2 counterexample: a schema-valid report (`destination_lat` a float,
`destination_lon` absent, both allowed by the schema) against a state store
holding a prior record with a destination makes the handler raise a
`TypeError` (modelled as `none`) instead of completing. -/
theorem track_crash_counterexample :
    (track distSq [("t1", (⟨0, 0, 0, some ⟨some 1, some 1⟩⟩ : StateRecord))]
      ⟨"t1", 0, 0, some 5, none⟩ 1).2 = none := by
  rfl

/-- C4: with a prior record present, the "prolonged inactivity" anomaly is
emitted iff the elapsed time since the prior timestamp exceeds 20 minutes and
the distance between prior and new coordinates is under 0.05 km. -/
theorem track_inactivity_iff (dist : ℚ → ℚ → ℚ → ℚ → ℚ) (st : TouristState)
    (data : TrackingData) (now : ℚ) (last : StateRecord)
    (h : List.lookup data.tourist_id st = some last) :
    inactivityMsg data.tourist_id ∈ (track dist st data now).1 ↔
      (now - last.timestamp > 20 ∧
        dist data.latitude data.longitude last.lat last.lon < 0.05) := by
  unfold track trackFinish
  rw [h]
  dsimp only
  by_cases hc : (now - last.timestamp > 20 ∧
      dist data.latitude data.longitude last.lat last.lon < 0.05)
  · rw [if_pos hc]
    cases data.destination_lat with
    | none => simp [hc]
    | some dlat =>
      dsimp only
      by_cases hdc : (dlat ≠ 0 ∧ last.dest.isSome = true)
      · rw [if_pos hdc]
        cases data.destination_lon with
        | none => simp [hc]
        | some dlon => simp [hc]
      · rw [if_neg hdc]
        simp [hc]
  · rw [if_neg hc]
    cases data.destination_lat with
    | none => simpa using hc
    | some dlat =>
      dsimp only
      by_cases hdc : (dlat ≠ 0 ∧ last.dest.isSome = true)
      · rw [if_pos hdc]
        cases data.destination_lon with
        | none => simpa using hc
        | some dlon =>
          simp only [List.nil_append, List.mem_singleton]  -- placeholder, adjusted below
          constructor
          · intro hm
            exfalso
            revert hm
            split_ifs with h2
            · intro hm
              rcases List.mem_singleton.mp hm with he
              exact inactivityMsg_ne_routeMsg data.tourist_id he
            · intro hm
              cases hm
          · intro hx
            exact absurd hx hc
      · rw [if_neg hdc]
        simpa using hc

theorem track_inactivity_iff_witness :
    inactivityMsg "t1" ∈
      (track distSq [("t1", (⟨10, 20, 0, none⟩ : StateRecord))]
        ⟨"t1", 10, 20.01, none, none⟩ 25).1 :=
  (track_inactivity_iff distSq [("t1", (⟨10, 20, 0, none⟩ : StateRecord))]
    ⟨"t1", 10, 20.01, none, none⟩ 25 ⟨10, 20, 0, none⟩ rfl).mpr
    (by constructor <;> norm_num [distSq])

/-- C1 (amended): with a prior record present, the "route deviation" anomaly
is emitted iff the report's `destination_lat` is non-null AND nonzero (Python
truthiness), the prior record stored a destination, the report's
`destination_lon` is non-null, and the new position's distance to the
destination exceeds the old position's distance by more than 0.2 km. -/
theorem track_route_deviation_iff (dist : ℚ → ℚ → ℚ → ℚ → ℚ) (st : TouristState)
    (data : TrackingData) (now : ℚ) (last : StateRecord)
    (h : List.lookup data.tourist_id st = some last) :
    routeMsg data.tourist_id ∈ (track dist st data now).1 ↔
      (∃ dlat dlon, data.destination_lat = some dlat ∧ dlat ≠ 0 ∧
        last.dest.isSome = true ∧ data.destination_lon = some dlon ∧
        dist data.latitude data.longitude dlat dlon >
          dist last.lat last.lon dlat dlon + 0.2) := by
  unfold track trackFinish
  rw [h]
  dsimp only
  have hmem1 : ∀ l : List String,
      l = [inactivityMsg data.tourist_id] ∨ l = [] →
        routeMsg data.tourist_id ∉ l := by
    rintro l (rfl | rfl)
    · intro hm
      exact inactivityMsg_ne_routeMsg data.tourist_id
        (List.mem_singleton.mp hm).symm
    · intro hm
      cases hm
  have ha1 : routeMsg data.tourist_id ∉
      (if now - last.timestamp > 20 ∧
          dist data.latitude data.longitude last.lat last.lon < 0.05 then
        [inactivityMsg data.tourist_id] else []) := by
    apply hmem1
    split_ifs
    · left; rfl
    · right; rfl
  cases hdl : data.destination_lat with
  | none =>
    constructor
    · intro hm
      exact absurd hm ha1
    · rintro ⟨dlat, dlon, hq, -⟩
      cases hq
  | some dlat =>
    dsimp only
    by_cases hdc : (dlat ≠ 0 ∧ last.dest.isSome = true)
    · rw [if_pos hdc]
      cases hlon : data.destination_lon with
      | none =>
        constructor
        · intro hm
          exact absurd hm ha1
        · rintro ⟨d1, d2, -, -, -, hq, -⟩
          cases hq
      | some dlon =>
        constructor
        · intro hm
          rcases List.mem_append.mp hm with hm | hm
          · exact absurd hm ha1
          · by_cases hgt : dist data.latitude data.longitude dlat dlon >
                dist last.lat last.lon dlat dlon + 0.2
            · exact ⟨dlat, dlon, rfl, hdc.1, hdc.2, rfl, hgt⟩
            · rw [if_neg hgt] at hm
              cases hm
        · rintro ⟨d1, d2, hq1, -, -, hq2, hgt⟩
          injection hq1 with he1
          injection hq2 with he2
          subst he1
          subst he2
          apply List.mem_append.mpr
          right
          rw [if_pos hgt]
          exact List.mem_singleton.mpr rfl
    · rw [if_neg hdc]
      constructor
      · intro hm
        exact absurd hm ha1
      · rintro ⟨d1, d2, hq1, hne, hsome, -, -⟩
        injection hq1 with he1
        subst he1
        exact absurd ⟨hne, hsome⟩ hdc

theorem track_route_deviation_iff_witness :
    routeMsg "t1" ∈
      (track distSq [("t1", (⟨0, 0, 0, some ⟨some 1, some 1⟩⟩ : StateRecord))]
        ⟨"t1", 5, 5, some 1, some 1⟩ 1).1 :=
  (track_route_deviation_iff distSq
    [("t1", (⟨0, 0, 0, some ⟨some 1, some 1⟩⟩ : StateRecord))]
    ⟨"t1", 5, 5, some 1, some 1⟩ 1 ⟨0, 0, 0, some ⟨some 1, some 1⟩⟩ rfl).mpr
    ⟨1, 1, rfl, by norm_num, rfl, rfl, by norm_num [distSq]⟩

/-- C1 counterexample: the new report carries the destination `(0, 1)` (a
legitimate point on the equator), the prior record had a destination, and the
new position's distance to the destination exceeds the old position's distance
by far more than 0.2 km — yet no "route deviation" anomaly is emitted, because
line 133 guards the check with Python truthiness of `destination_lat` and
`0.0` is falsy. -/
theorem track_zero_lat_route_deviation_missed :
    (⟨"t1", 5, 5, some 0, some 1⟩ : TrackingData).destination_lat = some 0 ∧
    (⟨"t1", 5, 5, some 0, some 1⟩ : TrackingData).destination_lon = some 1 ∧
    List.lookup "t1" [("t1", (⟨0, 0, 0, some ⟨some 1, some 1⟩⟩ : StateRecord))] =
      some ⟨0, 0, 0, some ⟨some 1, some 1⟩⟩ ∧
    distSq 5 5 0 1 > distSq 0 0 0 1 + 0.2 ∧
    routeMsg "t1" ∉
      (track distSq [("t1", (⟨0, 0, 0, some ⟨some 1, some 1⟩⟩ : StateRecord))]
        ⟨"t1", 5, 5, some 0, some 1⟩ 1).1 ∧
    (track distSq [("t1", (⟨0, 0, 0, some ⟨some 1, some 1⟩⟩ : StateRecord))]
      ⟨"t1", 5, 5, some 0, some 1⟩ 1).2.isSome = true := by
  refine ⟨rfl, rfl, rfl, by norm_num [distSq], ?_, rfl⟩
  have he : (track distSq
      [("t1", (⟨0, 0, 0, some ⟨some 1, some 1⟩⟩ : StateRecord))]
      ⟨"t1", 5, 5, some 0, some 1⟩ 1).1 = [] := by with_unfolding_all rfl
  rw [he]
  exact List.not_mem_nil _

lemma lookup_filter_eq_none (k : String) (p : String × StateRecord → Bool)
    (t : TouristState) (h : k ∉ t.map Prod.fst) :
    List.lookup k (t.filter p) = none := by
  apply lookup_eq_none_of_key_not_mem
  intro hmem
  apply h
  rcases List.mem_map.mp hmem with ⟨x, hx, he⟩
  exact List.mem_map.mpr ⟨x, (List.mem_filter.mp hx).1, he⟩

/-- C6: the staleness sweep deletes exactly the records whose timestamp is
more than 15 minutes old at sweep time, and leaves every other record
unchanged (stated pointwise over lookups; the `Nodup` hypothesis is the
Python-dict invariant that keys are pairwise distinct). -/
theorem sweep_deletes_exactly_stale (now : ℚ) (k : String) :
    ∀ st : TouristState, (st.map Prod.fst).Nodup →
      List.lookup k (check_for_sudden_dropoffs st now) =
        (List.lookup k st).bind
          (fun r => if now - r.timestamp > 15 then none else some r) := by
  intro st
  simp only [check_for_sudden_dropoffs]
  induction st with
  | nil => intro _; rfl
  | cons p t ih =>
    obtain ⟨a, v⟩ := p
    intro hnd
    simp only [List.map_cons, List.nodup_cons] at hnd
    obtain ⟨hna, hnd2⟩ := hnd
    by_cases hk : k = a
    · subst hk
      have hlk : List.lookup k ((k, v) :: t) = some v := by
        simp [List.lookup]
      rw [hlk]
      by_cases hts : now - v.timestamp > 15
      · rw [List.filter_cons_of_neg (by simp [hts])]
        rw [show ((some v).bind fun r =>
            if now - r.timestamp > 15 then none else some r) = none by
          simp [hts]]
        exact lookup_filter_eq_none k _ t hna
      · rw [List.filter_cons_of_pos (by simp [hts])]
        rw [show ((some v).bind fun r =>
            if now - r.timestamp > 15 then none else some r) = some v by
          simp [hts]]
        simp [List.lookup]
    · have hb : (k == a) = false := by simp [hk]
      have hlk : List.lookup k ((a, v) :: t) = List.lookup k t := by
        simp [List.lookup, hb]
      rw [hlk]
      by_cases hts : now - v.timestamp > 15
      · rw [List.filter_cons_of_neg (by simp [hts])]
        exact ih hnd2
      · rw [List.filter_cons_of_pos (by simp [hts])]
        rw [show List.lookup k ((a, v) ::
            List.filter (fun p => ! decide (now - p.2.timestamp > 15)) t) =
          List.lookup k
            (List.filter (fun p => ! decide (now - p.2.timestamp > 15)) t) by
          simp [List.lookup, hb]]
        exact ih hnd2

theorem sweep_deletes_exactly_stale_witness :
    List.lookup "a" (check_for_sudden_dropoffs
      [("a", (⟨1, 2, 0, none⟩ : StateRecord)),
       ("b", (⟨3, 4, 6, none⟩ : StateRecord))] 16) = none ∧
    List.lookup "b" (check_for_sudden_dropoffs
      [("a", (⟨1, 2, 0, none⟩ : StateRecord)),
       ("b", (⟨3, 4, 6, none⟩ : StateRecord))] 16) = some ⟨3, 4, 6, none⟩ := by
  constructor
  · have h := sweep_deletes_exactly_stale 16 "a"
      [("a", (⟨1, 2, 0, none⟩ : StateRecord)),
       ("b", (⟨3, 4, 6, none⟩ : StateRecord))] (by decide)
    rw [h]
    with_unfolding_all rfl
  · have h := sweep_deletes_exactly_stale 16 "b"
      [("a", (⟨1, 2, 0, none⟩ : StateRecord)),
       ("b", (⟨3, 4, 6, none⟩ : StateRecord))] (by decide)
    rw [h]
    with_unfolding_all rfl

lemma foldl_poiStep : ∀ (l : List PoiResult) (acc : List Attraction)
    (seen : List String),
    l.foldl poiStep (acc, seen) = (acc ++ dedup l seen, seenAfter l seen) := by
  intro l
  induction l with
  | nil => intro acc seen; simp [dedup, seenAfter]
  | cons r rs ih =>
    intro acc seen
    cases hn : r.name with
    | none => simp [List.foldl_cons, poiStep, hn, dedup, seenAfter, ih]
    | some n =>
      by_cases hc : (n ≠ "" ∧ n ∉ seen)
      · simp [List.foldl_cons, poiStep, hn, hc, dedup, seenAfter, ih]
      · simp [List.foldl_cons, poiStep, hn, hc, dedup, seenAfter, ih]

lemma dedup_mem_spec : ∀ (l : List PoiResult) (seen : List String)
    (a : Attraction), a ∈ dedup l seen →
      a.name ≠ "" ∧ a.name ∉ seen ∧
      ∃ r, l.find? (fun r2 => r2.name == some a.name) = some r ∧
        a = mkAttraction r a.name := by
  intro l
  induction l with
  | nil => intro seen a h; cases h
  | cons r rs ih =>
    intro seen a h
    cases hn : r.name with
    | none =>
      simp only [dedup, hn] at h
      obtain ⟨h1, h2, rr, hf, he⟩ := ih seen a h
      refine ⟨h1, h2, rr, ?_, he⟩
      have hbeq : (r.name == some a.name) = false := by simp [hn]
      simp only [List.find?_cons, hbeq]
      exact hf
    | some n =>
      simp only [dedup, hn] at h
      by_cases hc : (n ≠ "" ∧ n ∉ seen)
      · rw [if_pos hc] at h
        rcases List.mem_cons.mp h with he | hm
        · subst he
          refine ⟨hc.1, hc.2, r, ?_, rfl⟩
          have hbeq : (r.name == some (mkAttraction r n).name) = true := by
            simp [hn, mkAttraction]
          simp only [List.find?_cons, hbeq]
        · obtain ⟨h1, h2, rr, hf, he⟩ := ih (n :: seen) a hm
          have hne : a.name ≠ n := by
            intro he2
            exact h2 (he2 ▸ List.mem_cons_self n seen)
          refine ⟨h1, fun hx => h2 (List.mem_cons_of_mem _ hx), rr, ?_, he⟩
          have hbeq : (r.name == some a.name) = false := by
            simp [hn]
            exact fun he2 => hne he2.symm
          simp only [List.find?_cons, hbeq]
          exact hf
      · rw [if_neg hc] at h
        obtain ⟨h1, h2, rr, hf, he⟩ := ih seen a h
        have hne : a.name ≠ n := by
          intro he2
          rcases not_and_or.mp hc with hc1 | hc2
          · exact h1 (he2.trans (not_not.mp hc1))
          · exact h2 (he2 ▸ not_not.mp hc2)
        refine ⟨h1, h2, rr, ?_, he⟩
        have hbeq : (r.name == some a.name) = false := by
          simp [hn]
          exact fun he2 => hne he2.symm
        simp only [List.find?_cons, hbeq]
        exact hf

lemma dedup_names_nodup : ∀ (l : List PoiResult) (seen : List String),
    ((dedup l seen).map Attraction.name).Nodup := by
  intro l
  induction l with
  | nil => intro seen; simp [dedup]
  | cons r rs ih =>
    intro seen
    cases hn : r.name with
    | none => simp only [dedup, hn]; exact ih seen
    | some n =>
      simp only [dedup, hn]
      by_cases hc : (n ≠ "" ∧ n ∉ seen)
      · rw [if_pos hc]
        simp only [List.map_cons, List.nodup_cons]
        constructor
        · intro hmem
          rcases List.mem_map.mp hmem with ⟨b, hb, hbe⟩
          obtain ⟨-, h2, -⟩ := dedup_mem_spec rs (n :: seen) b hb
          exact h2 (hbe ▸ List.mem_cons_self n seen)
        · exact ih (n :: seen)
      · rw [if_neg hc]
        exact ih seen

lemma collectAttractions_eq_dedup (responses : List (Option (List PoiResult))) :
    collectAttractions responses = dedup (poiStream responses) [] := by
  have h1 : responses.foldl (fun st o => (o.getD []).foldl poiStep st)
      (([], []) : List Attraction × List String) =
      (poiStream responses).foldl poiStep ([], []) := by
    rw [poiStream, List.foldl_flatten, List.foldl_map]
  rw [collectAttractions, h1, foldl_poiStep]
  simp

/-- C8: the POI proxy's output has pairwise-distinct names, each entry coming
from the first gateway result (in keyword order) carrying that name, is
sorted ascending by reported distance, and has length at most 30. -/
theorem poi_output_spec (responses : List (Option (List PoiResult))) :
    ((get_nearby_attractions responses).map Attraction.name).Nodup ∧
    List.Sorted (fun a b : Attraction => a.dist ≤ b.dist)
      (get_nearby_attractions responses) ∧
    (get_nearby_attractions responses).length ≤ 30 ∧
    (∀ a ∈ get_nearby_attractions responses,
      ∃ r, (poiStream responses).find? (fun r2 => r2.name == some a.name) =
          some r ∧
        a = mkAttraction r a.name) := by
  have hperm := List.mergeSort_perm (collectAttractions responses)
    (fun a b => a.dist ≤ b.dist)
  have hsub := List.take_sublist 30
    ((collectAttractions responses).mergeSort (fun a b => a.dist ≤ b.dist))
  refine ⟨?_, ?_, ?_, ?_⟩
  · have hnd : ((collectAttractions responses).map Attraction.name).Nodup := by
      rw [collectAttractions_eq_dedup]
      exact dedup_names_nodup _ []
    have hnd2 : (((collectAttractions responses).mergeSort
        (fun a b => a.dist ≤ b.dist)).map Attraction.name).Nodup :=
      ((hperm.map Attraction.name).nodup_iff).mpr hnd
    exact (hsub.map Attraction.name).nodup hnd2
  · have hs := @List.sorted_mergeSort Attraction
      (fun a b : Attraction => decide (a.dist ≤ b.dist))
      (fun a b c hab hbc => by
        simp only [decide_eq_true_eq] at hab hbc ⊢
        exact le_trans hab hbc)
      (fun a b => by
        simp only [Bool.or_eq_true, decide_eq_true_eq]
        exact le_total a.dist b.dist)
      (collectAttractions responses)
    have hs2 : List.Pairwise (fun a b : Attraction => a.dist ≤ b.dist)
        ((collectAttractions responses).mergeSort
          (fun a b => a.dist ≤ b.dist)) :=
      hs.imp (fun h => by simpa using h)
    exact List.Pairwise.sublist hsub hs2
  · exact List.length_take_le 30 _
  · intro a ha
    have ha2 : a ∈ (collectAttractions responses).mergeSort
        (fun a b => a.dist ≤ b.dist) := hsub.subset ha
    have ha3 : a ∈ collectAttractions responses := hperm.mem_iff.mp ha2
    rw [collectAttractions_eq_dedup] at ha3
    obtain ⟨-, -, rr, hf, he⟩ := dedup_mem_spec (poiStream responses) [] a ha3
    exact ⟨rr, hf, he⟩

theorem poi_output_spec_witness :
    ∃ r, (poiStream poiResponsesW).find?
        (fun r2 => r2.name == some parkEntry.name) = some r ∧
      parkEntry = mkAttraction r parkEntry.name :=
  (poi_output_spec poiResponsesW).2.2.2 parkEntry (by with_unfolding_all decide)
